import Mathlib

/-!
Shallow embedding of the Conversation Session Controller implemented in
src/frontend/src/App.jsx (the `App` React component): its state
(`messages`, `input`, `loading`), the `sendMessage` operation split into
its synchronous phase and its asynchronous continuation, and the
`handleKeyDown` handler.
-/

/-- Role of a chat message; the source uses the string literals
"user" and "bot". -/
inductive Role where
  | user
  | bot
deriving DecidableEq

/-- A citation object with fields `source` and `chunk_id`, produced by the
backend and rendered verbatim; opaque to this component. -/
structure Citation where
  source : String
  chunk_id : String
deriving DecidableEq

/-- A transcript message, embedding the JS object literals built in
App.jsx. `sources := none` models an object literal WITHOUT a `sources`
field (reading it yields `undefined`); `sources := some l` models a
present field `sources: l`. -/
structure Message where
  role : Role
  text : String
  sources : Option (List Citation)
deriving DecidableEq

/-- One field of the JSON object decoded from the response body: the field
may be absent, may be an explicit `null`, or may carry a value. -/
inductive JField (α : Type) where
  | absent
  | null
  | val (a : α)
deriving DecidableEq

/-- The decoded response body `data` as read by `sendMessage`: an optional
`answer` string and an optional `sources` array. -/
structure ChatResponse where
  answer : JField String
  sources : JField (List Citation)
deriving DecidableEq

/-- Outcome of `await fetch(...)` followed by `await res.json()`:
either a successfully decoded body, or any failure (network error or
non-decodable body), which lands in the `catch` branch. -/
inductive Settle where
  | ok (data : ChatResponse)
  | err
deriving DecidableEq

/-- The outbound request built by `sendMessage`: `method: "POST"` and JSON
body with the single field `message` carrying the trimmed user text. -/
structure Request where
  method : String
  message : String
deriving DecidableEq

/-- The component state held in the three `useState` hooks of `App`. -/
structure AppState where
  messages : List Message
  input : String
  loading : Bool
deriving DecidableEq

/-- The synthetic bot greeting seeding the transcript (the initializer of
the `messages` state). It is built without a `sources` field. -/
def greeting : Message :=
  { role := .bot
    text := "Hi! I’m Jarvis. Ask me something from the knowledge base."
    sources := none }

/-- Initial state of `App`: transcript seeded with the greeting, empty
pending input, not loading. -/
def initState : AppState :=
  { messages := [greeting], input := "", loading := false }

/-- JS truthiness fallback `data.answer || "No response"`: an absent field
(`undefined`), `null` and the empty string are all falsy, so each yields
the literal fallback; any non-empty string is returned unchanged. -/
def answerOrDefault : JField String → String
  | .absent => "No response"
  | .null => "No response"
  | .val s => if s = "" then "No response" else s

/-- JS truthiness fallback `data.sources || []`: an absent field and
`null` are falsy and yield the empty array; any array value (arrays are
always truthy in JS, even when empty) is returned unchanged. -/
def sourcesOrDefault : JField (List Citation) → List Citation
  | .absent => []
  | .null => []
  | .val l => l

/-- Model of the JS string method `trim()` applied in `sendMessage`
(`input.trim()`): removes whitespace from both ends of the string. -/
def jsTrim (s : String) : String :=
  ⟨((s.data.dropWhile Char.isWhitespace).reverse.dropWhile Char.isWhitespace).reverse⟩

/-- The fixed connectivity-error text appended in the `catch` branch. -/
def backendErrorText : String :=
  "Error: Could not reach backend. Is it running on port 8000?"

/-- The bot message appended by the asynchronous continuation of
`sendMessage`. On success the object literal has a `sources` field
(`sources: data.sources || []`); in the `catch` branch the object literal
has no `sources` field at all. -/
def botReply : Settle → Message
  | .ok data =>
      { role := .bot
        text := answerOrDefault data.answer
        sources := some (sourcesOrDefault data.sources) }
  | .err =>
      { role := .bot, text := backendErrorText, sources := none }

/-- Synchronous phase of `sendMessage`, up to and including dispatching
the fetch: trim the input; return unchanged with no request if the
trimmed text is empty or `loading` is already true (`if (!msg || loading)
return;`); otherwise append the user message (an object literal with only
`role` and `text`, no `sources` field), clear the input, set `loading`,
and issue the POST request with JSON body `message: msg`. -/
def sendMessageSync (s : AppState) : AppState × Option Request :=
  let msg := jsTrim s.input
  if msg = "" ∨ s.loading = true then (s, none)
  else
    ({ messages := s.messages ++ [{ role := .user, text := msg, sources := none }]
       input := ""
       loading := true },
     some { method := "POST", message := msg })

/-- Asynchronous continuation of `sendMessage`, run when the request
settles: append the bot reply (`try` success branch or `catch` branch),
then the `finally` block clears `loading`. -/
def sendMessageSettle (s : AppState) (r : Settle) : AppState :=
  { s with messages := s.messages ++ [botReply r], loading := false }

/-- The whole `sendMessage` round trip for a given settlement `r` of the
request: the synchronous phase, then, only if a request was actually
dispatched, the continuation. -/
def sendMessage (s : AppState) (r : Settle) : AppState × Option Request :=
  match sendMessageSync s with
  | (s1, none) => (s1, none)
  | (s1, some q) => (sendMessageSettle s1 r, some q)

/-- `onChange` handler of the input box: replaces the pending input
verbatim (`setInput(e.target.value)`). -/
def setInput (s : AppState) (t : String) : AppState :=
  { s with input := t }

/-- `handleKeyDown`: `if (e.key === "Enter") sendMessage();` — on Enter it
invokes `sendMessage` (whose request, if dispatched, later settles as
`r`); on any other key it does nothing. -/
def handleKeyDown (s : AppState) (key : String) (r : Settle) :
    AppState × Option Request :=
  if key = "Enter" then sendMessage s r else (s, none)

theorem getLastD_append_pair (l : List Message) (a b d : Message) :
    (l ++ [a, b]).getLastD d = b := by
  induction l with
  | nil => rfl
  | cons x xs ih =>
      rw [List.cons_append, List.getLastD_cons]
      simp [ih]

theorem sendMessageSync_rejected (s : AppState)
    (h : jsTrim s.input = "" ∨ s.loading = true) :
    sendMessageSync s = (s, none) := by
  unfold sendMessageSync
  simp only [if_pos h]

theorem sendMessageSync_accepted (s : AppState)
    (ht : jsTrim s.input ≠ "") (hb : s.loading = false) :
    sendMessageSync s =
      ({ messages := s.messages ++
            [{ role := .user, text := jsTrim s.input, sources := none }]
         input := ""
         loading := true },
       some { method := "POST", message := jsTrim s.input }) := by
  unfold sendMessageSync
  rw [if_neg]
  rintro (h | h)
  · exact ht h
  · rw [hb] at h
    exact Bool.false_ne_true h

theorem sendMessage_rejected (s : AppState) (r : Settle)
    (h : jsTrim s.input = "" ∨ s.loading = true) :
    sendMessage s r = (s, none) := by
  unfold sendMessage
  rw [sendMessageSync_rejected s h]

theorem sendMessage_accepted (s : AppState) (r : Settle)
    (ht : jsTrim s.input ≠ "") (hb : s.loading = false) :
    sendMessage s r =
      ({ messages := s.messages ++
            [{ role := .user, text := jsTrim s.input, sources := none },
             botReply r]
         input := ""
         loading := false },
       some { method := "POST", message := jsTrim s.input }) := by
  unfold sendMessage
  rw [sendMessageSync_accepted s ht hb]
  simp [sendMessageSettle]

/-- Claim C1: for every call to submit, if the trimmed text is empty or
the busy flag is already true, the call is a no-op — the state (transcript,
pending input, busy flag) is unchanged and no outbound request is issued. -/
theorem C1_submit_noop (s : AppState) (r : Settle)
    (h : jsTrim s.input = "" ∨ s.loading = true) :
    sendMessage s r = (s, none) :=
  sendMessage_rejected s r h

/-- Concrete instances of C1: whitespace-only input while idle, and
non-empty input while busy. -/
theorem C1_submit_noop_witness :
    sendMessage { messages := [greeting], input := "   ", loading := false } .err
      = ({ messages := [greeting], input := "   ", loading := false }, none)
    ∧ sendMessage { messages := [greeting], input := "hello", loading := true }
        (.ok { answer := .absent, sources := .absent })
      = ({ messages := [greeting], input := "hello", loading := true }, none) :=
  ⟨C1_submit_noop _ _ (Or.inl (by decide)),
   C1_submit_noop _ _ (Or.inr rfl)⟩

/-- Claim C2: for every accepted submit (non-empty trimmed text, not
busy), the synchronous phase sets the busy flag, and after the request
settles — successfully decoded or failed — the busy flag is false. -/
theorem C2_busy_lifecycle (s : AppState) (r : Settle)
    (ht : jsTrim s.input ≠ "") (hb : s.loading = false) :
    (sendMessageSync s).1.loading = true ∧ (sendMessage s r).1.loading = false := by
  rw [sendMessageSync_accepted s ht hb, sendMessage_accepted s r ht hb]
  exact ⟨rfl, rfl⟩

/-- Concrete instance of C2 with a failing request. -/
theorem C2_busy_lifecycle_witness :
    (sendMessageSync { messages := [greeting], input := "hi", loading := false }).1.loading = true
    ∧ (sendMessage { messages := [greeting], input := "hi", loading := false } .err).1.loading = false :=
  C2_busy_lifecycle _ .err (by decide) rfl

/-- Claim C4 fails as stated: the user message appended by the
synchronous phase is the object literal with only `role` and `text`
— its `sources` field is absent (undefined), not present and equal
to the empty sequence. -/
theorem C4_counterexample :
    ((sendMessageSync { messages := [greeting], input := "hi", loading := false }).1.messages.getLastD greeting).sources
      ≠ some [] := by
  decide

/-- Claim C4 (amended): for every accepted submit, the synchronous phase
appends a user message carrying the trimmed text and no `sources` field,
clears the pending input, and sets the busy flag. -/
theorem C4_sync_phase (s : AppState)
    (ht : jsTrim s.input ≠ "") (hb : s.loading = false) :
    (sendMessageSync s).1.messages
        = s.messages ++ [{ role := .user, text := jsTrim s.input, sources := none }]
    ∧ (sendMessageSync s).1.input = ""
    ∧ (sendMessageSync s).1.loading = true := by
  rw [sendMessageSync_accepted s ht hb]
  exact ⟨rfl, rfl, rfl⟩

/-- Concrete instance of the amended C4. -/
theorem C4_sync_phase_witness :
    (sendMessageSync { messages := [greeting], input := " hi ", loading := false }).1.messages
        = [greeting] ++ [{ role := .user, text := jsTrim " hi ", sources := none }]
    ∧ (sendMessageSync { messages := [greeting], input := " hi ", loading := false }).1.input = ""
    ∧ (sendMessageSync { messages := [greeting], input := " hi ", loading := false }).1.loading = true :=
  C4_sync_phase _ (by decide) rfl

/-- Claim C3 fails as stated: in the catch branch the appended bot
message is the object literal with only `role` and `text` — its
`sources` field is absent (undefined), not present and equal to the
empty sequence. -/
theorem C3_counterexample :
    ((sendMessage { messages := [greeting], input := "hi", loading := false } .err).1.messages.getLastD greeting).sources
      ≠ some [] := by
  decide

/-- Claim C3 (amended): on any failure of the request, submit appends
exactly one bot message with the fixed connectivity-error text and no
`sources` field, the user message stays in the transcript right before
it, busy returns to false, and a subsequent submit of non-empty text is
accepted. -/
theorem C3_failure_reply (s : AppState)
    (ht : jsTrim s.input ≠ "") (hb : s.loading = false) :
    (sendMessage s .err).1.messages
        = s.messages ++
          [{ role := .user, text := jsTrim s.input, sources := none },
           { role := .bot, text := backendErrorText, sources := none }]
    ∧ (sendMessage s .err).1.loading = false
    ∧ ∀ t : String, jsTrim t ≠ "" →
        (sendMessageSync (setInput (sendMessage s .err).1 t)).2
          = some { method := "POST", message := jsTrim t } := by
  rw [sendMessage_accepted s .err ht hb]
  refine ⟨rfl, rfl, fun t htt => ?_⟩
  rw [sendMessageSync_accepted _ htt rfl]
  rfl

/-- Concrete instance of the amended C3: a failing round trip followed by
an accepted resubmission. -/
theorem C3_failure_reply_witness :
    (sendMessage { messages := [greeting], input := "hi", loading := false } .err).1.messages
        = [greeting] ++
          [{ role := .user, text := jsTrim "hi", sources := none },
           { role := .bot, text := backendErrorText, sources := none }]
    ∧ (sendMessage { messages := [greeting], input := "hi", loading := false } .err).1.loading = false
    ∧ (sendMessageSync (setInput (sendMessage { messages := [greeting], input := "hi", loading := false } .err).1 "again")).2
        = some { method := "POST", message := jsTrim "again" } :=
  ⟨(C3_failure_reply _ (by decide) rfl).1,
   (C3_failure_reply _ (by decide) rfl).2.1,
   (C3_failure_reply _ (by decide) rfl).2.2 "again" (by decide)⟩

/-- Claim C5 fails as stated: with the `answer` field present but equal
to the empty string, the appended bot text is the fallback
"No response", not the present answer value "". -/
theorem C5_counterexample :
    ((sendMessage { messages := [greeting], input := "hi", loading := false }
        (.ok { answer := .val "", sources := .absent })).1.messages.getLastD greeting).text
      = "No response"
    ∧ "No response" ≠ "" := by
  constructor
  · rw [sendMessage_accepted _ _ (by decide) rfl]
    decide
  · decide

/-- Claim C5 (amended): on a successfully decoded response, the appended
bot message has text equal to response.answer when the answer field is
present and truthy (a non-empty string) and the fallback "No response"
when it is absent, null, or the empty string; its sources field is
present and equals response.sources when that field holds an array, and
the empty sequence when it is absent or null. -/
theorem C5_success_reply (s : AppState) (data : ChatResponse)
    (ht : jsTrim s.input ≠ "") (hb : s.loading = false) :
    ((sendMessage s (.ok data)).1.messages.getLastD greeting).role = .bot
    ∧ (∀ a : String, data.answer = .val a → a ≠ "" →
        ((sendMessage s (.ok data)).1.messages.getLastD greeting).text = a)
    ∧ (data.answer = .absent ∨ data.answer = .null ∨ data.answer = .val "" →
        ((sendMessage s (.ok data)).1.messages.getLastD greeting).text = "No response")
    ∧ (∀ l : List Citation, data.sources = .val l →
        ((sendMessage s (.ok data)).1.messages.getLastD greeting).sources = some l)
    ∧ (data.sources = .absent ∨ data.sources = .null →
        ((sendMessage s (.ok data)).1.messages.getLastD greeting).sources = some []) := by
  rw [sendMessage_accepted s (.ok data) ht hb]
  simp only [getLastD_append_pair]
  refine ⟨rfl, fun a ha hne => ?_, fun ha => ?_, fun l hl => ?_, fun hl => ?_⟩
  · simp [botReply, answerOrDefault, ha, hne]
  · rcases ha with ha | ha | ha <;> simp [botReply, answerOrDefault, ha]
  · simp [botReply, sourcesOrDefault, hl]
  · rcases hl with hl | hl <;> simp [botReply, sourcesOrDefault, hl]

/-- Concrete instances of the amended C5: a truthy answer "Paris" with
one citation, and a null answer with a null sources field hitting both
fallbacks. -/
theorem C5_success_reply_witness :
    ((sendMessage { messages := [greeting], input := "hi", loading := false }
        (.ok { answer := .val "Paris", sources := .val [{ source := "doc1", chunk_id := "3" }] })).1.messages.getLastD greeting).text
      = "Paris"
    ∧ ((sendMessage { messages := [greeting], input := "hi", loading := false }
        (.ok { answer := .val "Paris", sources := .val [{ source := "doc1", chunk_id := "3" }] })).1.messages.getLastD greeting).sources
      = some [{ source := "doc1", chunk_id := "3" }]
    ∧ ((sendMessage { messages := [greeting], input := "hi", loading := false }
        (.ok { answer := .null, sources := .null })).1.messages.getLastD greeting).text
      = "No response"
    ∧ ((sendMessage { messages := [greeting], input := "hi", loading := false }
        (.ok { answer := .null, sources := .null })).1.messages.getLastD greeting).sources
      = some [] :=
  ⟨(C5_success_reply _ _ (by decide) rfl).2.1 "Paris" rfl (by decide),
   (C5_success_reply _ _ (by decide) rfl).2.2.2.1 [{ source := "doc1", chunk_id := "3" }] rfl,
   (C5_success_reply _ _ (by decide) rfl).2.2.1 (Or.inr (Or.inl rfl)),
   (C5_success_reply _ _ (by decide) rfl).2.2.2.2 (Or.inr rfl)⟩

/-- Claim C10: the fallbacks follow JS truthiness, not mere field
presence — an answer field present but falsy (the empty string, or an
explicit null) yields the text "No response", and a sources field
present but null yields the empty sequence. -/
theorem C10_falsy_fallbacks (s : AppState) (data : ChatResponse)
    (ht : jsTrim s.input ≠ "") (hb : s.loading = false) :
    (data.answer = .val "" ∨ data.answer = .null →
      ((sendMessage s (.ok data)).1.messages.getLastD greeting).text = "No response")
    ∧ (data.sources = .null →
      ((sendMessage s (.ok data)).1.messages.getLastD greeting).sources = some []) := by
  rw [sendMessage_accepted s (.ok data) ht hb]
  simp only [getLastD_append_pair]
  refine ⟨fun ha => ?_, fun hl => ?_⟩
  · rcases ha with ha | ha <;> simp [botReply, answerOrDefault, ha]
  · simp [botReply, sourcesOrDefault, hl]

/-- Concrete instances of C10: an answer present but empty, an answer
present but null, and a sources field present but null. -/
theorem C10_falsy_fallbacks_witness :
    ((sendMessage { messages := [greeting], input := "hi", loading := false }
        (.ok { answer := .val "", sources := .null })).1.messages.getLastD greeting).text = "No response"
    ∧ ((sendMessage { messages := [greeting], input := "hi", loading := false }
        (.ok { answer := .null, sources := .null })).1.messages.getLastD greeting).text = "No response"
    ∧ ((sendMessage { messages := [greeting], input := "hi", loading := false }
        (.ok { answer := .val "", sources := .null })).1.messages.getLastD greeting).sources = some [] :=
  ⟨(C10_falsy_fallbacks _ _ (by decide) rfl).1 (Or.inl rfl),
   (C10_falsy_fallbacks _ _ (by decide) rfl).1 (Or.inr rfl),
   (C10_falsy_fallbacks _ _ (by decide) rfl).2 rfl⟩

/-- A whole session in which every round trip succeeds: at each step the
pending input is replaced by the given text (the input box `onChange`)
and `sendMessage` is invoked, its request settling with the given
decoded response body. -/
def runSession : AppState → List (String × ChatResponse) → AppState
  | s, [] => s
  | s, (t, d) :: rest => runSession (sendMessage (setInput s t) (.ok d)).1 rest

theorem runSession_roles (l : List (String × ChatResponse)) :
    ∀ s : AppState, s.loading = false → (∀ p ∈ l, jsTrim p.1 ≠ "") →
      (runSession s l).messages.map Message.role
          = s.messages.map Message.role ++ (l.map fun _ => [Role.user, Role.bot]).flatten
      ∧ (runSession s l).loading = false := by
  induction l with
  | nil =>
      intro s hb _
      exact ⟨by simp [runSession], by rw [runSession]; exact hb⟩
  | cons p rest ih =>
      intro s hb hall
      obtain ⟨t, d⟩ := p
      have ht : jsTrim (setInput s t).input ≠ "" :=
        hall (t, d) (List.mem_cons_self _ _)
      have hstep := sendMessage_accepted (setInput s t) (.ok d) ht hb
      have hrec := ih (sendMessage (setInput s t) (.ok d)).1
        (by rw [hstep]) (fun q hq => hall q (List.mem_cons_of_mem _ hq))
      refine ⟨?_, ?_⟩
      · show (runSession (sendMessage (setInput s t) (.ok d)).1 rest).messages.map Message.role = _
        rw [hrec.1, hstep]
        simp [setInput, botReply]
      · show (runSession (sendMessage (setInput s t) (.ok d)).1 rest).loading = false
        exact hrec.2

theorem roles_join_length (l : List (String × ChatResponse)) :
    ((l.map fun _ => [Role.user, Role.bot]).flatten).length = 2 * l.length := by
  induction l with
  | nil => rfl
  | cons p rest ih =>
      simp only [List.map_cons, List.flatten_cons, List.length_append, List.length_cons,
        List.length_nil, ih]
      omega

/-- Claim C6: after a session of N submits whose round trips all succeed,
the transcript has length 1 + 2N, and its roles are the seeded bot
greeting followed by N alternating user-then-bot pairs. -/
theorem C6_transcript_shape (l : List (String × ChatResponse))
    (h : ∀ p ∈ l, jsTrim p.1 ≠ "") :
    (runSession initState l).messages.length = 1 + 2 * l.length
    ∧ (runSession initState l).messages.map Message.role
        = Role.bot :: (l.map fun _ => [Role.user, Role.bot]).flatten := by
  have hr := runSession_roles l initState rfl h
  constructor
  · have hlen := congrArg List.length hr.1
    have h1 : initState.messages.length = 1 := rfl
    simp only [List.length_map, List.length_append, roles_join_length l, h1] at hlen
    omega
  · have := hr.1
    simpa [initState, greeting] using this

/-- Concrete instance of C6 with one successful round trip. -/
theorem C6_transcript_shape_witness :
    (runSession initState [("hi", { answer := .val "Paris", sources := .absent })]).messages.length
        = 1 + 2 * ([("hi", { answer := .val "Paris", sources := .absent })] : List (String × ChatResponse)).length
    ∧ (runSession initState [("hi", { answer := .val "Paris", sources := .absent })]).messages.map Message.role
        = Role.bot :: (([("hi", { answer := .val "Paris", sources := .absent })] : List (String × ChatResponse)).map fun _ => [Role.user, Role.bot]).flatten :=
  C6_transcript_shape _ (by decide)

theorem get_append_pair (l : List Message) (a b : Message) :
    (l ++ [a, b]).get? l.length = some a
    ∧ (l ++ [a, b]).get? (l.length + 1) = some b := by
  induction l with
  | nil => exact ⟨rfl, rfl⟩
  | cons x xs ih =>
      rw [List.cons_append]
      exact ⟨ih.1, ih.2⟩

/-- Claim C7: for every accepted submit, the synchronous phase ends with
the user message already last in the transcript and exactly one dispatched
request (a POST whose body field `message` is the trimmed text); after
the request settles, the user message sits at the old transcript length
and the bot reply immediately after it, so the reply is strictly after
the triggering user message, and only those two messages were added. -/
theorem C7_ordering (s : AppState) (r : Settle)
    (ht : jsTrim s.input ≠ "") (hb : s.loading = false) :
    sendMessageSync s =
      ({ messages := s.messages ++
            [{ role := .user, text := jsTrim s.input, sources := none }]
         input := ""
         loading := true },
       some { method := "POST", message := jsTrim s.input })
    ∧ (sendMessage s r).1.messages.get? s.messages.length
        = some { role := .user, text := jsTrim s.input, sources := none }
    ∧ (sendMessage s r).1.messages.get? (s.messages.length + 1) = some (botReply r)
    ∧ (sendMessage s r).1.messages.length = s.messages.length + 2 := by
  refine ⟨sendMessageSync_accepted s ht hb, ?_, ?_, ?_⟩
  · rw [sendMessage_accepted s r ht hb]
    exact (get_append_pair s.messages _ _).1
  · rw [sendMessage_accepted s r ht hb]
    exact (get_append_pair s.messages _ _).2
  · rw [sendMessage_accepted s r ht hb]
    simp

/-- Concrete instance of C7 with a successful round trip. -/
theorem C7_ordering_witness :
    sendMessageSync { messages := [greeting], input := "hi", loading := false } =
      ({ messages := [greeting] ++
            [{ role := .user, text := jsTrim "hi", sources := none }]
         input := ""
         loading := true },
       some { method := "POST", message := jsTrim "hi" })
    ∧ (sendMessage { messages := [greeting], input := "hi", loading := false }
          (.ok { answer := .absent, sources := .absent })).1.messages.get? ([greeting] : List Message).length
        = some { role := .user, text := jsTrim "hi", sources := none }
    ∧ (sendMessage { messages := [greeting], input := "hi", loading := false }
          (.ok { answer := .absent, sources := .absent })).1.messages.get? (([greeting] : List Message).length + 1)
        = some (botReply (.ok { answer := .absent, sources := .absent }))
    ∧ (sendMessage { messages := [greeting], input := "hi", loading := false }
          (.ok { answer := .absent, sources := .absent })).1.messages.length
        = ([greeting] : List Message).length + 2 :=
  C7_ordering _ _ (by decide) rfl

/-- Claim C8: pressing Enter performs exactly the `sendMessage` state
transition on the current state (including the current pending-input
buffer); any other key changes nothing and dispatches nothing. -/
theorem C8_key_equiv (s : AppState) (r : Settle) (key : String) :
    handleKeyDown s "Enter" r = sendMessage s r
    ∧ (key ≠ "Enter" → handleKeyDown s key r = (s, none)) := by
  constructor
  · simp only [handleKeyDown, if_pos]
  · intro hk
    simp only [handleKeyDown, if_neg hk]

/-- Concrete instance of C8 for a non-Enter key. -/
theorem C8_key_equiv_witness :
    handleKeyDown initState "a" .err = (initState, none) :=
  (C8_key_equiv initState .err "a").2 (by decide)

theorem sendMessageSync_extends (s : AppState) :
    ∃ t : List Message, (sendMessageSync s).1.messages = s.messages ++ t := by
  by_cases ht : jsTrim s.input = ""
  · exact ⟨[], by rw [sendMessageSync_rejected s (Or.inl ht)]; simp⟩
  · cases hb : s.loading
    · exact ⟨[{ role := .user, text := jsTrim s.input, sources := none }],
        by rw [sendMessageSync_accepted s ht hb]⟩
    · exact ⟨[], by rw [sendMessageSync_rejected s (Or.inr hb)]; simp⟩

theorem sendMessage_extends (s : AppState) (r : Settle) :
    ∃ t : List Message, (sendMessage s r).1.messages = s.messages ++ t := by
  by_cases ht : jsTrim s.input = ""
  · exact ⟨[], by rw [sendMessage_rejected s r (Or.inl ht)]; simp⟩
  · cases hb : s.loading
    · exact ⟨[{ role := .user, text := jsTrim s.input, sources := none }, botReply r],
        by rw [sendMessage_accepted s r ht hb]⟩
    · exact ⟨[], by rw [sendMessage_rejected s r (Or.inr hb)]; simp⟩

/-- One observable transition of the session controller: editing the
pending input, a whole submit round trip, the synchronous phase alone,
the continuation of an outstanding request settling, or a key press. -/
inductive Step : AppState → AppState → Prop where
  | update (s : AppState) (t : String) : Step s (setInput s t)
  | submit (s : AppState) (r : Settle) : Step s (sendMessage s r).1
  | dispatch (s : AppState) : Step s (sendMessageSync s).1
  | settle (s : AppState) (r : Settle) : s.loading = true → Step s (sendMessageSettle s r)
  | key (s : AppState) (k : String) (r : Settle) : Step s (handleKeyDown s k r).1

/-- Claim C9: the transcript is seeded with exactly the one bot greeting,
and every reachable transition of the controller only appends to the
transcript: the prior transcript is a prefix of the new one. -/
theorem C9_append_only (s s2 : AppState) (h : Step s s2) :
    initState.messages = [greeting]
    ∧ greeting.role = .bot
    ∧ ∃ t : List Message, s2.messages = s.messages ++ t := by
  refine ⟨rfl, rfl, ?_⟩
  cases h with
  | update t1 => exact ⟨[], by simp [setInput]⟩
  | submit r1 => exact sendMessage_extends s r1
  | dispatch => exact sendMessageSync_extends s
  | settle r1 hl => exact ⟨[botReply r1], rfl⟩
  | key k1 r1 =>
      by_cases hk : k1 = "Enter"
      · have hext := sendMessage_extends s r1
        simpa [handleKeyDown, hk] using hext
      · exact ⟨[], by simp [handleKeyDown, hk]⟩

/-- Concrete instance of C9: editing the pending input appends nothing
and removes nothing. -/
theorem C9_append_only_witness :
    initState.messages = [greeting]
    ∧ greeting.role = .bot
    ∧ ∃ t : List Message, (setInput initState "x").messages = initState.messages ++ t :=
  C9_append_only initState (setInput initState "x") (Step.update initState "x")
